import Mathlib

/-!
# Verification of the store-and-forward message relay (net_interface.py)

Shallow embedding of the wire-protocol codec (`pack_message` / `unpack_message`),
the relay's mailbox queue and command handler (`Server.handleInteraction`), and
the reply-handling portions of the client driver (`send` / `receive`), together
with proofs and refutations of the specified properties.

Bytes are modelled as `Fin 256`; an IPv4 address as its four octets (the codec
only ever sees the 4-byte `inet_aton` form, and `inet_ntoa` renders the
canonical dotted quad of those same four octets). An absent address (`None` in
the Python) is `none`. The mailbox (`queue.Queue`, a FIFO) is a list with its
head at the front.
-/

namespace NetInterface

/-- A byte. -/
abbrev Byte := Fin 256

/-- An IPv4 address, as its four octets (the dotted-quad string `a.b.c.d`). -/
structure IPv4 where
  o1 : Byte
  o2 : Byte
  o3 : Byte
  o4 : Byte
deriving DecidableEq

/-- The all-zero address `0.0.0.0`, whose 4-byte form coincides with the
absent-address sentinel bytes. -/
def ipZero : IPv4 := ⟨0, 0, 0, 0⟩

/-- Command `SEND = 0` (net_interface.py line 26). -/
def SEND : Nat := 0

/-- Command `ACK = 1` (line 27). -/
def ACK : Nat := 1

/-- Command `REQ = 2` (line 28). -/
def REQ : Nat := 2

/-- Command `MSG = 3` (line 29). -/
def MSG : Nat := 3

/-- `socket.inet_aton` on a dotted quad: its four octet bytes. -/
def inet_aton (a : IPv4) : List Byte := [a.o1, a.o2, a.o3, a.o4]

/-- The 4 address bytes written by `pack_message` (lines 41-48): `inet_aton`
of the address when present, the all-zero sentinel `b"\x00\x00\x00\x00"`
when `None`. -/
def addr_bytes : Option IPv4 → List Byte
  | some a => inet_aton a
  | none => [0, 0, 0, 0]

/-- The 4 bytes of `struct.pack('! I', c)`: the 32-bit big-endian encoding. -/
def u32be (c : Nat) : List Byte :=
  [⟨c / 16777216 % 256, Nat.mod_lt _ (by norm_num)⟩,
   ⟨c / 65536 % 256, Nat.mod_lt _ (by norm_num)⟩,
   ⟨c / 256 % 256, Nat.mod_lt _ (by norm_num)⟩,
   ⟨c % 256, Nat.mod_lt _ (by norm_num)⟩]

/-- `pack_message(command, src_addr, dest_addr, payload)` (lines 36-51):
`IPCMessage.pack(command, src_bytes, dest_bytes) + payload` where
`IPCMessage = struct.Struct('! I 4s 4s')`. -/
def pack_message (command : Nat) (src_addr dest_addr : Option IPv4)
    (payload : List Byte) : List Byte :=
  u32be command ++ addr_bytes src_addr ++ addr_bytes dest_addr ++ payload

/-- The unsigned 32-bit number read back by `struct.unpack('! I', ...)`. -/
def be32 (b0 b1 b2 b3 : Byte) : Nat :=
  ((b0.val * 256 + b1.val) * 256 + b2.val) * 256 + b3.val

/-- Decoding of a 4-byte address field (lines 60-67): the all-zero sentinel
becomes `None`, anything else is `inet_ntoa` of the four bytes. -/
def inet_ntoa_opt (b0 b1 b2 b3 : Byte) : Option IPv4 :=
  if b0 = 0 ∧ b1 = 0 ∧ b2 = 0 ∧ b3 = 0 then none else some ⟨b0, b1, b2, b3⟩

/-- `unpack_message(message)` (lines 53-71): `struct.unpack` of the first 12
bytes (raising `struct.error`, here `none`, when fewer than 12 are present),
with the remainder of the buffer as the payload. -/
def unpack_message : List Byte → Option (Nat × Option IPv4 × Option IPv4 × List Byte)
  | c0 :: c1 :: c2 :: c3 :: s0 :: s1 :: s2 :: s3 :: d0 :: d1 :: d2 :: d3 :: rest =>
      some (be32 c0 c1 c2 c3, inet_ntoa_opt s0 s1 s2 s3, inet_ntoa_opt d0 d1 d2 d3, rest)
  | _ => none

/-- Decoding the address bytes of a present, nonzero address recovers it. -/
theorem inet_ntoa_opt_aton (a : IPv4) (h : a ≠ ipZero) :
    inet_ntoa_opt a.o1 a.o2 a.o3 a.o4 = some a := by
  rcases a with ⟨b0, b1, b2, b3⟩
  simp only [inet_ntoa_opt]
  rw [if_neg]
  rintro ⟨h0, h1, h2, h3⟩
  exact h (by simp [ipZero, h0, h1, h2, h3])

/-- Claim C1 (amended): the codec round-trips every command below `2^32` and
every payload, for source and destination addresses that are each either
absent or a present address other than the all-zero `0.0.0.0` (whose 4-byte
form is the absent sentinel). -/
theorem unpack_pack_roundtrip (c : Nat) (hc : c < 4294967296)
    (s d : Option IPv4) (hs : s ≠ some ipZero) (hd : d ≠ some ipZero)
    (p : List Byte) :
    unpack_message (pack_message c s d p) = some (c, s, d, p) := by
  have hbe : ∀ (x : Nat), x < 4294967296 →
      be32 ⟨x / 16777216 % 256, Nat.mod_lt _ (by norm_num)⟩
        ⟨x / 65536 % 256, Nat.mod_lt _ (by norm_num)⟩
        ⟨x / 256 % 256, Nat.mod_lt _ (by norm_num)⟩
        ⟨x % 256, Nat.mod_lt _ (by norm_num)⟩ = x := by
    intro x hx
    simp only [be32]
    omega
  rcases s with _ | a <;> rcases d with _ | b <;>
    simp only [pack_message, u32be, addr_bytes, inet_aton, List.cons_append,
      List.nil_append, unpack_message, hbe c hc]
  · simp [inet_ntoa_opt]
  · rw [inet_ntoa_opt_aton b (fun hb => hd (by rw [hb]))]
    simp [inet_ntoa_opt]
  · rw [inet_ntoa_opt_aton a (fun ha => hs (by rw [ha]))]
    simp [inet_ntoa_opt]
  · rw [inet_ntoa_opt_aton a (fun ha => hs (by rw [ha])),
      inet_ntoa_opt_aton b (fun hb => hd (by rw [hb]))]

/-- Witness for C1: the round-trip at a concrete message. -/
theorem unpack_pack_roundtrip_witness :
    (SEND : Nat) < 4294967296 ∧
    (some (⟨10, 0, 0, 1⟩ : IPv4) ≠ some ipZero) ∧
    ((none : Option IPv4) ≠ some ipZero) ∧
    unpack_message (pack_message SEND (some ⟨10, 0, 0, 1⟩) none [104, 105]) =
      some (SEND, some ⟨10, 0, 0, 1⟩, none, [104, 105]) :=
  ⟨by decide, by decide, by decide,
    unpack_pack_roundtrip SEND (by decide) (some ⟨10, 0, 0, 1⟩) none (by decide)
      (by decide) [104, 105]⟩

/-- Counterexample to C1 as stated: the valid IPv4 address `0.0.0.0` does not
round-trip — packed as a present source it decodes back as absent. -/
theorem unpack_pack_not_roundtrip_zero :
    unpack_message (pack_message SEND (some ipZero) none [104]) ≠
      some (SEND, some ipZero, none, [104]) := by decide

/-- A mailbox entry: `(source address, payload)` as stored by
`self.queue.put((src_addr, payload))` (line 196). -/
abbrev Entry := Option IPv4 × List Byte

/-- The relay's mailbox: `queue.Queue()` (line 97), a FIFO with its head at
the front of the list. -/
abbrev Mailbox := List Entry

/-- `queue.put(e)`: append at the tail. -/
def enqueue (q : Mailbox) (e : Entry) : Mailbox := q ++ [e]

/-- The relay's guarded dequeue pattern
(`if not self.queue.empty(): ... self.queue.get()`, lines 205-208): removes
and returns the head entry when one exists, reports empty otherwise, never
failing. -/
def try_dequeue : Mailbox → Option Entry × Mailbox
  | [] => (none, [])
  | e :: rest => (some e, rest)

/-- `Server.handleInteraction(message, sock)` (lines 184-219), with the
server's own address `this_ip` and the mailbox made explicit. Returns `none`
when `unpack_message` raises (message shorter than the 12-byte header);
otherwise the new mailbox together with the reply written to the socket
(`none` when no branch matches the command and nothing is sent). -/
def handleInteraction (thisIp : IPv4) (q : Mailbox) (message : List Byte) :
    Option (Mailbox × Option (List Byte)) :=
  match unpack_message message with
  | none => none
  | some (command, src_addr, dest_addr, payload) =>
    if command = SEND then
      some (enqueue q (src_addr, payload),
        some (pack_message ACK src_addr dest_addr []))
    else if command = REQ then
      match try_dequeue q with
      | (some (src, pl), rest) =>
          some (rest, some (pack_message MSG src (some thisIp) pl))
      | (none, _) => some (q, some (pack_message MSG none none []))
    else
      some (q, none)

/-- Claim C2: on a decoded `SEND(src, dest, payload)` the relay appends
`(src, payload)` at the tail of the mailbox, growing it by exactly one, and
replies with the encoding of `ACK(src, dest, empty)`. -/
theorem handleInteraction_send (thisIp : IPv4) (q : Mailbox) (m : List Byte)
    (s d : Option IPv4) (p : List Byte)
    (h : unpack_message m = some (SEND, s, d, p)) :
    handleInteraction thisIp q m =
      some (q ++ [(s, p)], some (pack_message ACK s d [])) ∧
    (q ++ [(s, p)]).length = q.length + 1 := by
  constructor
  · simp [handleInteraction, h, enqueue, SEND]
  · simp

/-- Witness for C2 at a concrete interaction: mailbox initially empty, a
packed `SEND` from `10.0.0.1` with payload `b"hi"`. -/
theorem handleInteraction_send_witness :
    unpack_message (pack_message SEND (some ⟨10, 0, 0, 1⟩) (some ⟨10, 0, 0, 2⟩)
        [104, 105]) =
      some (SEND, some ⟨10, 0, 0, 1⟩, some ⟨10, 0, 0, 2⟩, [104, 105]) ∧
    (handleInteraction ⟨10, 0, 0, 2⟩ [] (pack_message SEND (some ⟨10, 0, 0, 1⟩)
        (some ⟨10, 0, 0, 2⟩) [104, 105]) =
      some ([(some ⟨10, 0, 0, 1⟩, [104, 105])],
        some (pack_message ACK (some ⟨10, 0, 0, 1⟩) (some ⟨10, 0, 0, 2⟩) [])) ∧
    ([] ++ [((some ⟨10, 0, 0, 1⟩ : Option IPv4), ([104, 105] : List Byte))]).length =
      ([] : Mailbox).length + 1) :=
  ⟨by decide,
    handleInteraction_send ⟨10, 0, 0, 2⟩ [] _ (some ⟨10, 0, 0, 1⟩)
      (some ⟨10, 0, 0, 2⟩) [104, 105] (by decide)⟩

/-- Claim C3: on a decoded `REQ`, a non-empty mailbox loses its head entry
`(src, pl)` and the reply encodes `MSG(src, this_ip, pl)`; an empty mailbox
stays empty and the reply encodes `MSG(absent, absent, empty)`. -/
theorem handleInteraction_req (thisIp : IPv4) (q : Mailbox) (m : List Byte)
    (s d : Option IPv4) (p : List Byte)
    (h : unpack_message m = some (REQ, s, d, p)) :
    (q = [] →
      handleInteraction thisIp q m =
        some ([], some (pack_message MSG none none []))) ∧
    (∀ e rest, q = e :: rest →
      handleInteraction thisIp q m =
        some (rest, some (pack_message MSG e.1 (some thisIp) e.2)) ∧
      q.length = rest.length + 1) := by
  constructor
  · rintro rfl
    simp [handleInteraction, h, try_dequeue, REQ, SEND]
  · rintro ⟨es, ep⟩ rest rfl
    refine ⟨?_, by simp⟩
    simp [handleInteraction, h, try_dequeue, REQ, SEND]

/-- Witness for C3: a `REQ` against the empty mailbox, and against one
holding a single entry from `10.0.0.1`. -/
theorem handleInteraction_req_witness :
    unpack_message (pack_message REQ (some ⟨10, 0, 0, 3⟩) none []) =
      some (REQ, some ⟨10, 0, 0, 3⟩, none, []) ∧
    handleInteraction ⟨10, 0, 0, 2⟩ [] (pack_message REQ (some ⟨10, 0, 0, 3⟩) none []) =
      some ([], some (pack_message MSG none none [])) ∧
    handleInteraction ⟨10, 0, 0, 2⟩ [(some ⟨10, 0, 0, 1⟩, [104, 105])]
        (pack_message REQ (some ⟨10, 0, 0, 3⟩) none []) =
      some ([], some (pack_message MSG (some ⟨10, 0, 0, 1⟩) (some ⟨10, 0, 0, 2⟩)
        [104, 105])) :=
  ⟨by decide,
    (handleInteraction_req ⟨10, 0, 0, 2⟩ [] _ (some ⟨10, 0, 0, 3⟩) none []
      (by decide)).1 rfl,
    ((handleInteraction_req ⟨10, 0, 0, 2⟩ [(some ⟨10, 0, 0, 1⟩, [104, 105])] _
      (some ⟨10, 0, 0, 3⟩) none [] (by decide)).2
      (some ⟨10, 0, 0, 1⟩, [104, 105]) [] rfl).1⟩

/-- Claim C4 (amended): the FIFO law on the mailbox starting from the empty
state — after `enqueue (s1, p1)` then `enqueue (s2, p2)`, two `try_dequeue`
calls yield `(s1, p1)` then `(s2, p2)`, leaving the mailbox empty. -/
theorem fifo_law (s1 s2 : Option IPv4) (p1 p2 : List Byte) :
    (try_dequeue (enqueue (enqueue [] (s1, p1)) (s2, p2))).1 = some (s1, p1) ∧
    (try_dequeue (try_dequeue (enqueue (enqueue [] (s1, p1)) (s2, p2))).2).1 =
      some (s2, p2) ∧
    (try_dequeue (try_dequeue (enqueue (enqueue [] (s1, p1)) (s2, p2))).2).2 = [] := by
  simp [enqueue, try_dequeue]

/-- Counterexample to C4 as stated: on a mailbox that already holds an entry,
the two dequeues after `enqueue (s1, p1); enqueue (s2, p2)` yield the
pre-existing entry first, not `(s1, p1)` then `(s2, p2)`. -/
theorem fifo_not_from_any_state :
    (try_dequeue (enqueue (enqueue [((none : Option IPv4), ([9] : List Byte))]
      (none, [1])) (none, [2]))).1 ≠ some (none, [1]) := by decide

/-- Iterated guarded dequeue: the results of `n` successive `try_dequeue`
calls together with the final mailbox. -/
def dequeueN : Nat → Mailbox → List (Option Entry) × Mailbox
  | 0, q => ([], q)
  | n + 1, q =>
    match try_dequeue q with
    | (r, rest) =>
      match dequeueN n rest with
      | (rs, final) => (r :: rs, final)

/-- Claim C9: on an empty mailbox, any number of successive `try_dequeue`
calls each report empty, never fail, and leave the mailbox empty. -/
theorem try_dequeue_empty_idempotent (n : Nat) :
    dequeueN n [] = (List.replicate n none, []) := by
  induction n with
  | zero => rfl
  | succ k ih => simp [dequeueN, try_dequeue, ih, List.replicate_succ]

/-- Claim C10: on a decoded message whose command is neither `SEND` (0) nor
`REQ` (2) — including `ACK` and `MSG` — the relay leaves the mailbox
unchanged and writes no reply: the command is silently ignored. -/
theorem handleInteraction_other_ignored (thisIp : IPv4) (q : Mailbox)
    (m : List Byte) (c : Nat) (s d : Option IPv4) (p : List Byte)
    (h : unpack_message m = some (c, s, d, p))
    (hsend : c ≠ SEND) (hreq : c ≠ REQ) :
    handleInteraction thisIp q m = some (q, none) := by
  simp [handleInteraction, h, hsend, hreq]

/-- Witness for C10: an `ACK` sent to the server with a non-empty mailbox is
ignored — same mailbox, no reply. -/
theorem handleInteraction_other_ignored_witness :
    unpack_message (pack_message ACK (some ⟨10, 0, 0, 1⟩) none []) =
      some (ACK, some ⟨10, 0, 0, 1⟩, none, []) ∧
    (ACK : Nat) ≠ SEND ∧ (ACK : Nat) ≠ REQ ∧
    handleInteraction ⟨10, 0, 0, 2⟩ [(none, [7])]
        (pack_message ACK (some ⟨10, 0, 0, 1⟩) none []) =
      some ([(none, [7])], none) :=
  ⟨by decide, by decide, by decide,
    handleInteraction_other_ignored ⟨10, 0, 0, 2⟩ [(none, [7])] _ ACK
      (some ⟨10, 0, 0, 1⟩) none [] (by decide) (by decide) (by decide)⟩

/-- The four error classes defined at lines 383-390 of net_interface.py:
`ConnectionError`, `AckTimeout`, `ReceiveError`, and `CommandError` (the
error kind for a decoded command outside the expected set; defined but never
raised by the source). -/
inductive ClientError
  | connectionError
  | ackTimeout
  | receiveError
  | commandError
deriving DecidableEq

/-- Outcome of the client `send`'s handling of a decoded reply. -/
inductive SendReplyResult
  | ok
  | raised (e : ClientError)
deriving DecidableEq

/-- The reply-handling step of the client `send` (lines 310-319): unpack the
received data (`none` models the uncaught `struct.error` on fewer than 12
bytes); on `ACK` return normally, on any other command raise
`AckTimeout("Unknown acknowledgment issue.")`. -/
def sendHandleReply (data : List Byte) : Option SendReplyResult :=
  match unpack_message data with
  | none => none
  | some (command, _, _, _) =>
    if command = ACK then some SendReplyResult.ok
    else some (SendReplyResult.raised ClientError.ackTimeout)

/-- Outcome of the client `receive`'s handling of a decoded reply. -/
inductive RecvResult
  | noMessage
  | message (src : Option IPv4) (payload : List Byte)
  | raised (e : ClientError)
deriving DecidableEq

/-- The reply-handling step of the client `receive` (lines 352-369): unpack
the accumulated data; on `MSG` with empty payload and absent source return
`None, None` (a null result); on any other `MSG` return
`(src_addr, payload)`; on any other command raise `ReceiveError`. -/
def receiveHandleReply (data : List Byte) : Option RecvResult :=
  match unpack_message data with
  | none => none
  | some (command, src_addr, _dest_addr, payload) =>
    if command = MSG then
      if payload = [] ∧ src_addr = none then some RecvResult.noMessage
      else some (RecvResult.message src_addr payload)
    else some (RecvResult.raised ClientError.receiveError)

/-- Claim C5: for a decoded `MSG` reply, `receive` returns the null result
exactly when the decoded source is absent and the payload empty, and in
every other `MSG` case returns the pair `(source, payload)`. -/
theorem receive_null_iff_absent_empty (data : List Byte) (c : Nat)
    (s d : Option IPv4) (p : List Byte)
    (h : unpack_message data = some (c, s, d, p)) (hc : c = MSG) :
    (receiveHandleReply data = some RecvResult.noMessage ↔ (p = [] ∧ s = none)) ∧
    (¬(p = [] ∧ s = none) →
      receiveHandleReply data = some (RecvResult.message s p)) := by
  subst hc
  by_cases hcond : p = [] ∧ s = none <;>
    simp [receiveHandleReply, h, hcond]

/-- Witness for C5: the empty-mailbox sentinel `MSG(absent, absent, b"")`
decodes to the null result, and a real `MSG` carrying a payload decodes to
its `(source, payload)` pair. -/
theorem receive_null_iff_absent_empty_witness :
    unpack_message (pack_message MSG none none []) =
      some (MSG, none, none, []) ∧
    receiveHandleReply (pack_message MSG none none []) =
      some RecvResult.noMessage ∧
    unpack_message (pack_message MSG (some ⟨10, 0, 0, 1⟩) (some ⟨10, 0, 0, 2⟩)
        [104]) =
      some (MSG, some ⟨10, 0, 0, 1⟩, some ⟨10, 0, 0, 2⟩, [104]) ∧
    receiveHandleReply (pack_message MSG (some ⟨10, 0, 0, 1⟩) (some ⟨10, 0, 0, 2⟩)
        [104]) =
      some (RecvResult.message (some ⟨10, 0, 0, 1⟩) [104]) :=
  ⟨by decide,
    (receive_null_iff_absent_empty _ MSG none none [] (by decide) rfl).1.mpr
      (by decide),
    by decide,
    (receive_null_iff_absent_empty _ MSG (some ⟨10, 0, 0, 1⟩)
      (some ⟨10, 0, 0, 2⟩) [104] (by decide) rfl).2 (by decide)⟩

/-- Claim C6 (amended): whenever the decoded reply to a `send` has any
command other than `ACK`, the call fails by raising `AckTimeout` — not the
protocol-error kind (`CommandError`) reserved for an unexpected command. -/
theorem send_nonack_raises_acktimeout (data : List Byte) (c : Nat)
    (s d : Option IPv4) (p : List Byte)
    (h : unpack_message data = some (c, s, d, p)) (hc : c ≠ ACK) :
    sendHandleReply data = some (SendReplyResult.raised ClientError.ackTimeout) := by
  simp [sendHandleReply, h, hc]

/-- Witness for C6 (amended): a `MSG` reply to a `send`. -/
theorem send_nonack_raises_acktimeout_witness :
    unpack_message (pack_message MSG none none []) =
      some (MSG, none, none, []) ∧
    (MSG : Nat) ≠ ACK ∧
    sendHandleReply (pack_message MSG none none []) =
      some (SendReplyResult.raised ClientError.ackTimeout) :=
  ⟨by decide, by decide,
    send_nonack_raises_acktimeout _ MSG none none [] (by decide) (by decide)⟩

/-- Counterexample to C6 as stated: on a decoded non-`ACK` reply the error
raised is `AckTimeout` (line 319), which is not the protocol-error kind
(`CommandError`). -/
theorem send_nonack_not_protocol_error :
    sendHandleReply (pack_message MSG none none []) =
      some (SendReplyResult.raised ClientError.ackTimeout) ∧
    ClientError.ackTimeout ≠ ClientError.commandError := by decide

/-- How the client `send` exits: normal return after an `ACK`, or one of its
raise sites (`ConnectionError` at line 300, `AckTimeout` at lines 319 and
321, or the uncaught `struct.error` from `unpack_message` on a short
reply). -/
inductive SendExit
  | success
  | raisedConnectionError
  | raisedAckTimeout
  | raisedDecodeError
deriving DecidableEq

/-- Control flow of the client `send` (lines 289-322): `connectOk` is
whether `sock.connect` succeeds, `ready` whether `select.select` reports
readiness within the 3-second timeout, `reply` the bytes received. The
second component records whether `sock.close()` ran before the exit: the
only `sock.close()` in `send` (line 322) stands after both the `return` at
line 317 and the `raise` statements at lines 319 and 321, so no path
reaches it. -/
def send_run (connectOk ready : Bool) (reply : List Byte) : SendExit × Bool :=
  if connectOk then
    if ready then
      match unpack_message reply with
      | none => (SendExit.raisedDecodeError, false)
      | some (command, _, _, _) =>
        if command = ACK then (SendExit.success, false)
        else (SendExit.raisedAckTimeout, false)
    else (SendExit.raisedAckTimeout, false)
  else (SendExit.raisedConnectionError, false)

/-- Claim C7 is violated by the code: a successful, acknowledged `send`
returns with its socket still open, and on every exit path — success,
timeout, non-`ACK` reply, connect failure — the socket `send` opened is not
closed before the call returns or fails. -/
theorem send_no_exit_path_closes_socket :
    (send_run true true (pack_message ACK (some ⟨10, 0, 0, 2⟩)
      (some ⟨10, 0, 0, 1⟩) [])).1 = SendExit.success ∧
    ∀ (connectOk ready : Bool) (reply : List Byte),
      (send_run connectOk ready reply).2 = false := by
  constructor
  · decide
  · intro connectOk ready reply
    unfold send_run
    repeat' split
    all_goals rfl

/-- Claim C8: `unpack_message` fails distinctly (raises `struct.error`) on
every input shorter than the 12-byte fixed header, and succeeds on every
input of at least 12 bytes with the remainder beyond the header as the
payload. -/
theorem unpack_short_fails_long_succeeds (msg : List Byte) :
    (msg.length < 12 → unpack_message msg = none) ∧
    (12 ≤ msg.length →
      ∃ c s d, unpack_message msg = some (c, s, d, msg.drop 12)) := by
  match msg with
  | [] => exact ⟨fun _ => rfl, by intro h; simp at h⟩
  | [_] => exact ⟨fun _ => rfl, by intro h; simp at h⟩
  | [_, _] => exact ⟨fun _ => rfl, by intro h; simp at h⟩
  | [_, _, _] => exact ⟨fun _ => rfl, by intro h; simp at h⟩
  | [_, _, _, _] => exact ⟨fun _ => rfl, by intro h; simp at h⟩
  | [_, _, _, _, _] => exact ⟨fun _ => rfl, by intro h; simp at h⟩
  | [_, _, _, _, _, _] => exact ⟨fun _ => rfl, by intro h; simp at h⟩
  | [_, _, _, _, _, _, _] => exact ⟨fun _ => rfl, by intro h; simp at h⟩
  | [_, _, _, _, _, _, _, _] => exact ⟨fun _ => rfl, by intro h; simp at h⟩
  | [_, _, _, _, _, _, _, _, _] => exact ⟨fun _ => rfl, by intro h; simp at h⟩
  | [_, _, _, _, _, _, _, _, _, _] => exact ⟨fun _ => rfl, by intro h; simp at h⟩
  | [_, _, _, _, _, _, _, _, _, _, _] => exact ⟨fun _ => rfl, by intro h; simp at h⟩
  | c0 :: c1 :: c2 :: c3 :: s0 :: s1 :: s2 :: s3 :: d0 :: d1 :: d2 :: d3 :: rest =>
    refine ⟨fun h => ?_, fun _ => ⟨_, _, _, rfl⟩⟩
    simp at h
    omega

/-- Witness for C8: an 11-byte input fails, a 13-byte input succeeds with
the byte beyond the header as payload. -/
theorem unpack_short_fails_long_succeeds_witness :
    unpack_message [0, 0, 0, 0, 0, 0, 0, 0, 0, 0, 0] = none ∧
    ∃ c s d, unpack_message [0, 0, 0, 1, 10, 0, 0, 1, 0, 0, 0, 0, 7] =
      some (c, s, d,
        ([0, 0, 0, 1, 10, 0, 0, 1, 0, 0, 0, 0, 7] : List Byte).drop 12) :=
  ⟨(unpack_short_fails_long_succeeds [0, 0, 0, 0, 0, 0, 0, 0, 0, 0, 0]).1
      (by decide),
    (unpack_short_fails_long_succeeds
      [0, 0, 0, 1, 10, 0, 0, 1, 0, 0, 0, 0, 7]).2 (by decide)⟩

end NetInterface
